import Mathlib

/-!
# Verification of the quizgraph rule-evaluation engine

This file gives a shallow embedding of the two surviving revisions of the
quizgraph module and proves properties of them:

* `TypesTs` embeds `src/lib/internal/types.ts`;
* `Part000` embeds the unnamed revision (`src/unnamed/part_000`).

JavaScript runtime values are embedded as the inductive type `JsVal`.
JavaScript numbers are embedded as `JsNum`: an exact rational together with
the IEEE special values `NaN` and the two infinities (rounding of doubles is
irrelevant here: the code only compares values, never computes with them).
Object identity (JavaScript reference equality on `Date`, arrays and plain
objects) is modelled by an identity tag carried by each composite
constructor: two composites are the same heap object exactly when they carry
the same tag.  Primitive values carry no tag, as JavaScript compares them by
value.
-/

/-- A JavaScript number: a finite (exact) rational, an infinity, or NaN. -/
inductive JsNum where
  | fin (q : ℚ)
  | posInf
  | negInf
  | nan
deriving DecidableEq, Repr

/-- A JavaScript runtime value.  Composite values (`vDate`, `vArr`, `vObj`)
carry an identity tag `oid` modelling heap identity: in any state produced by
a real execution, two composites with the same tag are the same object (and
hence structurally identical). -/
inductive JsVal where
  | vStr (s : String)
  | vNum (n : JsNum)
  | vBool (b : Bool)
  | vNull
  | vUndef
  | vDate (oid : Nat) (time : Int)
  | vArr (oid : Nat) (items : List JsVal)
  | vObj (oid : Nat) (fields : List (String × JsVal))

/-- JavaScript `<` on numbers: `NaN` is unordered (every comparison with it
is false); otherwise the order of the extended rationals. -/
def jsNumLt : JsNum → JsNum → Bool
  | .nan, _ => false
  | _, .nan => false
  | .fin a, .fin b => decide (a < b)
  | .fin _, .posInf => true
  | .fin _, .negInf => false
  | .negInf, .fin _ => true
  | .negInf, .posInf => true
  | .negInf, .negInf => false
  | .posInf, _ => false

/-- JavaScript `===` on numbers: `NaN === NaN` is false; finite values and
infinities compare by value. -/
def jsNumEq : JsNum → JsNum → Bool
  | .fin a, .fin b => decide (a = b)
  | .posInf, .posInf => true
  | .negInf, .negInf => true
  | _, _ => false

/-- JavaScript strict equality `===`.  Primitives compare by value (with
`NaN !== NaN`); `Date`s, arrays and objects compare by heap identity, i.e.
by their identity tag; values of different runtime type are never equal. -/
def jsStrictEq : JsVal → JsVal → Bool
  | .vStr a, .vStr b => a == b
  | .vNum a, .vNum b => jsNumEq a b
  | .vBool a, .vBool b => a == b
  | .vNull, .vNull => true
  | .vUndef, .vUndef => true
  | .vDate i _, .vDate j _ => i == j
  | .vArr i _, .vArr j _ => i == j
  | .vObj i _, .vObj j _ => i == j
  | _, _ => false

/-- JavaScript SameValueZero, used by `Array.prototype.includes`: like `===`
but `NaN` matches `NaN`. -/
def jsSameValueZero : JsVal → JsVal → Bool
  | .vNum .nan, .vNum .nan => true
  | a, b => jsStrictEq a b

/-- The JavaScript type test `x instanceof Date`. -/
def isDateVal : JsVal → Bool
  | .vDate _ _ => true
  | _ => false

/-- The JavaScript type test `typeof x === 'number'`. -/
def isNumVal : JsVal → Bool
  | .vNum _ => true
  | _ => false

/-- Model of JavaScript `ToNumber` on a string: surrounding whitespace is
ignored, the empty string is `0`, an optional sign followed by decimal
digits with an optional fractional part parses to the exact rational, the
`Infinity` spellings parse to the infinities, anything else is `NaN`.
(Hexadecimal and exponent forms of the JavaScript grammar are not modelled;
no verified statement depends on string-to-number coercion.) -/
def parseDecString (s : String) : JsNum :=
  let cs := (s.toList.dropWhile Char.isWhitespace).reverse.dropWhile Char.isWhitespace |>.reverse
  let digitsVal : List Char → Nat := fun l =>
    l.foldl (fun acc c => acc * 10 + (c.toNat - 48)) 0
  let core : List Char → JsNum := fun ds =>
    if ds = "Infinity".toList then .posInf
    else
      let intPart := ds.takeWhile Char.isDigit
      let rest := ds.dropWhile Char.isDigit
      let fracPart : Option (List Char) :=
        match rest with
        | [] => some []
        | '.' :: fs => if fs.all Char.isDigit then some fs else none
        | _ => none
      match fracPart with
      | none => .nan
      | some fs =>
          if intPart = [] ∧ fs = [] then .nan
          else
            .fin (Rat.divInt (Int.ofNat (digitsVal (intPart ++ fs)))
                             (Int.ofNat (Nat.pow 10 fs.length)))
  match cs with
  | [] => .fin 0
  | '-' :: rest =>
      match core rest with
      | .fin q => .fin (Rat.neg q)
      | .posInf => .negInf
      | _ => .nan
  | '+' :: rest => core rest
  | _ => core cs

/-- Model of JavaScript `ToNumber` (as applied by `Number(x)` and by the
relational operators after `ToPrimitive`): numbers are themselves, booleans
are `1`/`0`, `null` is `0`, `undefined` is `NaN`, a `Date` is its timestamp,
strings parse per `parseDecString`.  Arrays and plain objects coerce through
their string rendering; this is modelled as `NaN` (the generic outcome; the
special cases `[]` and single-numeric-element arrays are not distinguished —
no verified statement depends on coercion of composites). -/
def jsToNumber : JsVal → JsNum
  | .vNum n => n
  | .vBool true => .fin 1
  | .vBool false => .fin 0
  | .vNull => .fin 0
  | .vUndef => .nan
  | .vDate _ t => .fin t
  | .vStr s => parseDecString s
  | .vArr _ _ => .nan
  | .vObj _ _ => .nan

/-- Model of JavaScript `ToString` as applied to the argument of
`new RegExp(...)`: strings are themselves, the remaining cases are rendered
abstractly (no verified statement depends on the rendering of non-string
pattern values). -/
def jsToStrModel : JsVal → String
  | .vStr s => s
  | .vBool true => "true"
  | .vBool false => "false"
  | .vNull => "null"
  | .vUndef => "undefined"
  | _ => ""

/-- Model of `new RegExp(pat).test(s)`: the host regular-expression engine is
abstracted as substring occurrence (a pattern with no metacharacters matches
exactly when it occurs in the subject).  The verified statements depend only
on this being a fixed total function of the pattern and the subject, never on
the pattern semantics. -/
def regexTest (pat s : String) : Bool :=
  decide (pat.toList <:+: s.toList)

/-- The condition operators of `ConditionOperatorEnum` (both revisions define
the same eight members with the same string values). -/
inductive ConditionOperator where
  | EQUALS
  | NOT_EQUALS
  | CONTAINS
  | NOT_CONTAINS
  | GREATER_THAN
  | LESS_THAN
  | BETWEEN
  | MATCHES
deriving DecidableEq, Repr

/-- The combination types of `CombinationTypeEnum`. -/
inductive CombinationType where
  | AND
  | OR
deriving DecidableEq, Repr

/-- A branching condition (`ConditionSchema`).  `value` and
`additionalValue` are runtime values; `additionalValue` is optional
(`none` models the absent/`undefined` field).  The two revisions give
`value` different static unions (only `part_000` admits `Date`s), but both
evaluators receive the same runtime shape. -/
structure Condition where
  questionId : String
  operator : ConditionOperator
  value : JsVal
  additionalValue : Option JsVal

/-- A transition (`TransitionSchema`).  `combinationType` is optional; the
evaluators test it against `OR` with `===`, so an absent value behaves as
`AND`. -/
structure Transition where
  conditions : List Condition
  nextNodeId : String
  combinationType : Option CombinationType

/-- A recorded answer (`QuestionResponseSchema` / `QuestionResponse`).  The
evaluators read only `value`; the other fields are carried for fidelity. -/
structure QuestionResponse where
  questionId : String
  value : JsVal
  timestamp : Int
  isValid : Bool
  validationErrors : Option (List String)

/-- The `responses` record (`Record<string, QuestionResponse>`): a string-keyed
map, embedded as an association list with unique keys in any real state;
lookup returns the first binding. -/
abbrev Responses := List (String × QuestionResponse)

/-!
## Embedding of the valibot schemas

`validateQuiz` in both revisions is `v.parse(QuizSchema, quiz)` inside a
`try`/`catch`.  The schemas are embedded as boolean checkers over `JsVal`
following valibot `1.0.0-beta.7` semantics: `v.object` requires a plain
object, validates the listed entries and ignores unknown entries;
`v.optional` passes on a missing or `undefined` entry (its default value
only affects the parsed output, never acceptance); `v.union` passes when at
least one member passes; `v.record(v.string(), v.unknown())` requires an
object; `v.literal` and `v.enum` compare against the literal / the enum's
string values.
-/

/-- `v.object` entry check for a required entry: the key must be present and
its value must satisfy the entry schema (an `undefined` value fails every
base schema used here). -/
def reqField (fields : List (String × JsVal)) (k : String) (p : JsVal → Bool) : Bool :=
  match fields.lookup k with
  | some x => p x
  | none => false

/-- `v.optional` entry check: a missing or `undefined` entry passes,
otherwise the wrapped schema decides. -/
def optField (fields : List (String × JsVal)) (k : String) (p : JsVal → Bool) : Bool :=
  match fields.lookup k with
  | none => true
  | some .vUndef => true
  | some x => p x

/-- `v.string()` -/
def checkStr : JsVal → Bool
  | .vStr _ => true
  | _ => false

/-- `v.number()` -/
def checkNum : JsVal → Bool
  | .vNum _ => true
  | _ => false

/-- `v.boolean()` -/
def checkBool : JsVal → Bool
  | .vBool _ => true
  | _ => false

/-- `v.date()` -/
def checkDate : JsVal → Bool
  | .vDate _ _ => true
  | _ => false

/-- `v.array(p)` -/
def checkArrayOf (p : JsVal → Bool) : JsVal → Bool
  | .vArr _ items => items.all p
  | _ => false

/-- `v.record(v.string(), v.unknown())` -/
def checkRecord : JsVal → Bool
  | .vObj _ _ => true
  | _ => false

/-- `v.literal(s)` for a string literal -/
def checkLit (s : String) : JsVal → Bool
  | .vStr t => t == s
  | _ => false

/-- `OptionSchema` -/
def checkOption : JsVal → Bool
  | .vObj _ fs =>
      reqField fs "value" (fun x => checkStr x || checkNum x) &&
      reqField fs "label" checkStr &&
      optField fs "disabled" checkBool
  | _ => false

/-- `TextValidationSchema` -/
def checkTextValidation : JsVal → Bool
  | .vObj _ fs =>
      optField fs "minLength" checkNum && optField fs "maxLength" checkNum &&
      optField fs "pattern" checkStr && optField fs "patternError" checkStr
  | _ => false

/-- `NumberValidationSchema` -/
def checkNumberValidation : JsVal → Bool
  | .vObj _ fs =>
      optField fs "min" checkNum && optField fs "max" checkNum &&
      optField fs "integer" checkBool && optField fs "step" checkNum
  | _ => false

/-- `DateValidationSchema` -/
def checkDateValidation : JsVal → Bool
  | .vObj _ fs =>
      optField fs "minDate" checkDate && optField fs "maxDate" checkDate &&
      optField fs "disallowedDates" (checkArrayOf checkDate)
  | _ => false

/-- `FileValidationSchema` -/
def checkFileValidation : JsVal → Bool
  | .vObj _ fs =>
      optField fs "maxSize" checkNum && optField fs "allowedTypes" (checkArrayOf checkStr)
  | _ => false

/-- `MultiSelectValidationSchema` and `CheckboxGroupValidationSchema`
(identical shape in both revisions) -/
def checkSelectedCountValidation : JsVal → Bool
  | .vObj _ fs =>
      optField fs "minSelected" checkNum && optField fs "maxSelected" checkNum
  | _ => false

/-- `RatingValidationSchema` (the revisions differ only in the defaults of
the optional entries, which do not affect acceptance) -/
def checkRatingValidation : JsVal → Bool
  | .vObj _ fs => optField fs "min" checkNum && optField fs "max" checkNum
  | _ => false

/-- `SignatureValidationSchema` -/
def checkSignatureValidation : JsVal → Bool
  | .vObj _ fs =>
      optField fs "minWidth" checkNum && optField fs "maxWidth" checkNum &&
      optField fs "required" checkBool
  | _ => false

/-- The shared `baseQuestionFields` of `QuestionSchema` -/
def checkBaseQuestion (fs : List (String × JsVal)) : Bool :=
  reqField fs "id" checkStr && reqField fs "label" checkStr &&
  optField fs "description" checkStr && optField fs "required" checkBool

/-- `QuestionSchema`: the union of the ten question variants (identical in
both revisions). -/
def checkQuestion : JsVal → Bool
  | .vObj _ fs =>
      checkBaseQuestion fs &&
      ((reqField fs "type" (checkLit "text") &&
          optField fs "validation" checkTextValidation &&
          optField fs "placeholder" checkStr && optField fs "defaultValue" checkStr) ||
       (reqField fs "type" (checkLit "number") &&
          optField fs "validation" checkNumberValidation &&
          optField fs "placeholder" checkStr && optField fs "defaultValue" checkNum) ||
       (reqField fs "type" (checkLit "select") &&
          reqField fs "options" (checkArrayOf checkOption) &&
          optField fs "defaultValue" checkStr && optField fs "placeholder" checkStr) ||
       (reqField fs "type" (checkLit "multiSelect") &&
          reqField fs "options" (checkArrayOf checkOption) &&
          optField fs "validation" checkSelectedCountValidation &&
          optField fs "defaultValue" (checkArrayOf checkStr) &&
          optField fs "placeholder" checkStr) ||
       (reqField fs "type" (checkLit "checkbox") &&
          optField fs "defaultValue" checkBool) ||
       (reqField fs "type" (checkLit "checkboxGroup") &&
          reqField fs "options" (checkArrayOf checkOption) &&
          optField fs "validation" checkSelectedCountValidation &&
          optField fs "defaultValue" (checkArrayOf checkStr)) ||
       (reqField fs "type" (checkLit "date") &&
          optField fs "validation" checkDateValidation &&
          optField fs "defaultValue" checkDate && optField fs "placeholder" checkStr) ||
       (reqField fs "type" (checkLit "rating") &&
          optField fs "validation" checkRatingValidation &&
          optField fs "defaultValue" checkNum) ||
       (reqField fs "type" (checkLit "file") &&
          optField fs "validation" checkFileValidation &&
          optField fs "multiple" checkBool) ||
       (reqField fs "type" (checkLit "signature") &&
          optField fs "validation" checkSignatureValidation))
  | _ => false

/-- `v.enum(ConditionOperatorEnum)`: one of the eight operator strings. -/
def checkOperatorStr (j : JsVal) : Bool :=
  checkLit "equals" j || checkLit "notEquals" j || checkLit "contains" j ||
  checkLit "notContains" j || checkLit "greaterThan" j || checkLit "lessThan" j ||
  checkLit "between" j || checkLit "matches" j

/-- `v.enum(CombinationTypeEnum)` -/
def checkCombinationStr (j : JsVal) : Bool :=
  checkLit "AND" j || checkLit "OR" j

/-- `TransitionSchema`, parameterised by the revision's condition schema. -/
def checkTransitionWith (checkCond : JsVal → Bool) : JsVal → Bool
  | .vObj _ fs =>
      reqField fs "conditions" (checkArrayOf checkCond) &&
      reqField fs "nextNodeId" checkStr &&
      optField fs "combinationType" checkCombinationStr
  | _ => false

/-- `NodeSchema`, parameterised by the revision's condition schema.  Note
that `nextNodeId` is validated only as a string: no cross-reference check. -/
def checkNodeWith (checkCond : JsVal → Bool) : JsVal → Bool
  | .vObj _ fs =>
      reqField fs "id" checkStr && reqField fs "title" checkStr &&
      optField fs "description" checkStr &&
      reqField fs "questions" (checkArrayOf checkQuestion) &&
      reqField fs "transitions" (checkArrayOf (checkTransitionWith checkCond)) &&
      optField fs "isStart" checkBool && optField fs "isEnd" checkBool &&
      optField fs "metadata" checkRecord
  | _ => false

/-- The `settings` sub-object of `QuizSchema` -/
def checkSettings : JsVal → Bool
  | .vObj _ fs =>
      optField fs "allowBackTracking" checkBool &&
      optField fs "showProgressBar" checkBool &&
      optField fs "shuffleQuestions" checkBool &&
      optField fs "theme" checkStr && optField fs "timeLimit" checkNum
  | _ => false

/-- `QuizSchema`, parameterised by the revision's condition schema. -/
def checkQuizWith (checkCond : JsVal → Bool) : JsVal → Bool
  | .vObj _ fs =>
      reqField fs "id" checkStr && reqField fs "title" checkStr &&
      optField fs "description" checkStr && reqField fs "version" checkStr &&
      reqField fs "nodes" (checkArrayOf (checkNodeWith checkCond)) &&
      optField fs "settings" checkSettings &&
      optField fs "metadata" checkRecord
  | _ => false

namespace TypesTs

/-- `ConditionSchema` of `types.ts` (lines 190–200): `value` is a string,
number, boolean or array of those (no `Date`); `additionalValue` is an
optional string or number. -/
def checkCondition : JsVal → Bool
  | .vObj _ fs =>
      reqField fs "questionId" checkStr &&
      reqField fs "operator" checkOperatorStr &&
      reqField fs "value" (fun x =>
        checkStr x || checkNum x || checkBool x ||
        checkArrayOf (fun y => checkStr y || checkNum y || checkBool y) x) &&
      optField fs "additionalValue" (fun x => checkStr x || checkNum x)
  | _ => false

/-- `v.parse(QuizSchema, quiz)` of `types.ts`: succeeds exactly when the
value conforms to the schema, and throws a `ValiError` otherwise. -/
def parseQuiz (j : JsVal) : Except String Unit :=
  if checkQuizWith checkCondition j then Except.ok () else Except.error "ValiError"

/-- `validateQuiz` of `types.ts` (lines 367–375): `v.parse` inside
`try`/`catch`; a successful parse returns `true`, a thrown error is caught
(and logged, an effect elided here) and mapped to `false`. -/
def validateQuiz (j : JsVal) : Bool :=
  match parseQuiz j with
  | Except.ok _ => true
  | Except.error _ => false

end TypesTs

namespace Part000

/-- `ConditionSchema` of `part_000` (lines 251–262): unlike the `types.ts`
revision, `value` also admits `Date`s (alone or in the array) and
`additionalValue` admits a `Date`. -/
def checkCondition : JsVal → Bool
  | .vObj _ fs =>
      reqField fs "questionId" checkStr &&
      reqField fs "operator" checkOperatorStr &&
      reqField fs "value" (fun x =>
        checkStr x || checkNum x || checkBool x || checkDate x ||
        checkArrayOf (fun y => checkStr y || checkNum y || checkBool y || checkDate y) x) &&
      optField fs "additionalValue" (fun x => checkStr x || checkNum x || checkDate x)
  | _ => false

/-- `v.parse(QuizSchema, quiz)` of `part_000`. -/
def parseQuiz (j : JsVal) : Except String Unit :=
  if checkQuizWith checkCondition j then Except.ok () else Except.error "ValiError"

/-- `validateQuiz` of `part_000` (lines 328–336): identical wrapper to the
`types.ts` revision. -/
def validateQuiz (j : JsVal) : Bool :=
  match parseQuiz j with
  | Except.ok _ => true
  | Except.error _ => false

end Part000

namespace TypesTs

/-- The body of the `switch` inside `evaluateTransition`'s local
`evaluateCondition` in `src/lib/internal/types.ts` (lines 386–412), applied
once the response for `condition.questionId` has been found.

* EQUALS / NOT_EQUALS are plain `===` / `!==`;
* CONTAINS / NOT_CONTAINS require the response value to be an array and use
  `Array.prototype.includes` (SameValueZero);
* GREATER_THAN / LESS_THAN / BETWEEN require `typeof response.value ===
  'number'` and compare against the coerced condition value; BETWEEN's upper
  bound is `condition.additionalValue ?? Infinity` (the `??` fires on both
  `undefined` and `null`);
* MATCHES requires a string response and tests the pattern. -/
def evalOperator (condition : Condition) (response : QuestionResponse) : Bool :=
  match condition.operator with
  | .EQUALS => jsStrictEq response.value condition.value
  | .NOT_EQUALS => !(jsStrictEq response.value condition.value)
  | .CONTAINS =>
      match response.value with
      | .vArr _ items => items.any (fun x => jsSameValueZero x condition.value)
      | _ => false
  | .NOT_CONTAINS =>
      match response.value with
      | .vArr _ items => !(items.any (fun x => jsSameValueZero x condition.value))
      | _ => false
  | .GREATER_THAN =>
      match response.value with
      | .vNum n => jsNumLt (jsToNumber condition.value) n
      | _ => false
  | .LESS_THAN =>
      match response.value with
      | .vNum n => jsNumLt n (jsToNumber condition.value)
      | _ => false
  | .BETWEEN =>
      match response.value with
      | .vNum n =>
          jsNumLt (jsToNumber condition.value) n &&
            (match condition.additionalValue with
             | none => jsNumLt n .posInf
             | some .vNull => jsNumLt n .posInf
             | some av => jsNumLt n (jsToNumber av))
      | _ => false
  | .MATCHES =>
      match response.value with
      | .vStr s => regexTest (jsToStrModel condition.value) s
      | _ => false

/-- The local `evaluateCondition` of `types.ts` (lines 382–413): looks up the
response for `condition.questionId`; a missing response yields `false`,
otherwise the operator is dispatched. -/
def evaluateCondition (responses : Responses) (condition : Condition) : Bool :=
  match responses.lookup condition.questionId with
  | none => false
  | some response => evalOperator condition response

/-- `evaluateTransition` of `types.ts` (lines 378–418):
`combinationType === OR` selects `Array.prototype.some`, anything else
(including the absent default) selects `every`. -/
def evaluateTransition (transition : Transition) (responses : Responses) : Bool :=
  match transition.combinationType with
  | some .OR => transition.conditions.any (evaluateCondition responses)
  | _ => transition.conditions.all (evaluateCondition responses)

end TypesTs

namespace Part000

/-- The local `compareValues` of `part_000`'s `evaluateTransition`
(lines 359–364): two `Date`s compare by `getTime()`, everything else by
`===`. -/
def compareValues (a b : JsVal) : Bool :=
  match a, b with
  | .vDate _ ta, .vDate _ tb => ta == tb
  | a, b => jsStrictEq a b

/-- The body of the `switch` inside `part_000`'s local `evaluateCondition`
(lines 366–415), applied once the response has been found.

* EQUALS / NOT_EQUALS use `compareValues` (date-instant aware);
* CONTAINS / NOT_CONTAINS require an array response and use
  `some(v => compareValues(v, condition.value))`;
* GREATER_THAN / LESS_THAN compare two `Date`s by date order, otherwise coerce
  both sides with `Number(...)`;
* BETWEEN requires both bounds numeric (or both `Date`s, with a `Date`
  response); otherwise `false`;
* MATCHES requires a string response and tests the pattern. -/
def evalOperator (condition : Condition) (response : QuestionResponse) : Bool :=
  match condition.operator with
  | .EQUALS => compareValues response.value condition.value
  | .NOT_EQUALS => !(compareValues response.value condition.value)
  | .CONTAINS =>
      match response.value with
      | .vArr _ items => items.any (fun x => compareValues x condition.value)
      | _ => false
  | .NOT_CONTAINS =>
      match response.value with
      | .vArr _ items => !(items.any (fun x => compareValues x condition.value))
      | _ => false
  | .GREATER_THAN =>
      match response.value, condition.value with
      | .vDate _ tr, .vDate _ tc => decide (tc < tr)
      | rv, cv => jsNumLt (jsToNumber cv) (jsToNumber rv)
  | .LESS_THAN =>
      match response.value, condition.value with
      | .vDate _ tr, .vDate _ tc => decide (tr < tc)
      | rv, cv => jsNumLt (jsToNumber rv) (jsToNumber cv)
  | .BETWEEN =>
      match condition.value, condition.additionalValue with
      | .vNum lo, some (.vNum hi) =>
          jsNumLt lo (jsToNumber response.value) &&
            jsNumLt (jsToNumber response.value) hi
      | .vDate _ tlo, some (.vDate _ thi) =>
          (match response.value with
           | .vDate _ tr => decide (tlo < tr) && decide (tr < thi)
           | _ => false)
      | _, _ => false
  | .MATCHES =>
      match response.value with
      | .vStr s => regexTest (jsToStrModel condition.value) s
      | _ => false

/-- The local `evaluateCondition` of `part_000` (lines 355–416): a missing
response yields `false`, otherwise the operator is dispatched. -/
def evaluateCondition (responses : Responses) (condition : Condition) : Bool :=
  match responses.lookup condition.questionId with
  | none => false
  | some response => evalOperator condition response

/-- `evaluateTransition` of `part_000` (lines 351–421): identical combination
logic to the `types.ts` revision. -/
def evaluateTransition (transition : Transition) (responses : Responses) : Bool :=
  match transition.combinationType with
  | some .OR => transition.conditions.any (evaluateCondition responses)
  | _ => transition.conditions.all (evaluateCondition responses)

end Part000

/-!
## State-threaded form of the evaluators

To express that condition evaluation only reads the `responses` record, the
evaluators are restated in explicit state-passing form: the single operation
that touches the record — the property read `responses[condition.questionId]`
— returns the record it was given, and the short-circuiting iteration of
`Array.prototype.some` / `every` threads the record left to right exactly as
the JavaScript evaluation order does.
-/

/-- The property read `responses[qid]`: yields the binding (if any) and the
record, unchanged. -/
def readResponse (responses : Responses) (qid : String) :
    Option QuestionResponse × Responses :=
  (responses.lookup qid, responses)

/-- `Array.prototype.some` with a state-threading callback: left-to-right,
stopping at the first `true`. -/
def someSt (f : Condition → Responses → Bool × Responses) :
    List Condition → Responses → Bool × Responses
  | [], s => (false, s)
  | c :: cs, s =>
      match f c s with
      | (true, s1) => (true, s1)
      | (false, s1) => someSt f cs s1

/-- `Array.prototype.every` with a state-threading callback: left-to-right,
stopping at the first `false`. -/
def everySt (f : Condition → Responses → Bool × Responses) :
    List Condition → Responses → Bool × Responses
  | [], s => (true, s)
  | c :: cs, s =>
      match f c s with
      | (false, s1) => (false, s1)
      | (true, s1) => everySt f cs s1

namespace TypesTs

/-- State-threaded form of `evaluateCondition` of `types.ts`. -/
def evaluateConditionSt (condition : Condition) (responses : Responses) :
    Bool × Responses :=
  match readResponse responses condition.questionId with
  | (none, rs1) => (false, rs1)
  | (some response, rs1) => (evalOperator condition response, rs1)

/-- State-threaded form of `evaluateTransition` of `types.ts`. -/
def evaluateTransitionSt (transition : Transition) (responses : Responses) :
    Bool × Responses :=
  match transition.combinationType with
  | some .OR => someSt evaluateConditionSt transition.conditions responses
  | _ => everySt evaluateConditionSt transition.conditions responses

end TypesTs

namespace Part000

/-- State-threaded form of `evaluateCondition` of `part_000`. -/
def evaluateConditionSt (condition : Condition) (responses : Responses) :
    Bool × Responses :=
  match readResponse responses condition.questionId with
  | (none, rs1) => (false, rs1)
  | (some response, rs1) => (evalOperator condition response, rs1)

/-- State-threaded form of `evaluateTransition` of `part_000`. -/
def evaluateTransitionSt (transition : Transition) (responses : Responses) :
    Bool × Responses :=
  match transition.combinationType with
  | some .OR => someSt evaluateConditionSt transition.conditions responses
  | _ => everySt evaluateConditionSt transition.conditions responses

end Part000

/-!
## Concrete quizzes

Two schema-conformant two-node quizzes that differ only in the start node's
transition target: in `quizDangling` the transition's `nextNodeId` is
`"missing"`, which is no node's `id`; in `quizFixed` it is `"n2"`, the id of
the second node.  (Identity tags on the composites are irrelevant to schema
checking and are chosen arbitrarily.)
-/

/-- A transition whose `nextNodeId` matches no node of the quiz. -/
def danglingTransition : JsVal :=
  .vObj 1 [("conditions", .vArr 2 []), ("nextNodeId", .vStr "missing")]

/-- The same transition with the reference corrected to the end node. -/
def fixedTransition : JsVal :=
  .vObj 1 [("conditions", .vArr 2 []), ("nextNodeId", .vStr "n2")]

/-- The start node, holding one outgoing transition. -/
def startNodeWith (t : JsVal) : JsVal :=
  .vObj 3 [("id", .vStr "n1"), ("title", .vStr "Start"),
           ("questions", .vArr 4 []), ("transitions", .vArr 5 [t]),
           ("isStart", .vBool true)]

/-- The end node. -/
def endNode : JsVal :=
  .vObj 6 [("id", .vStr "n2"), ("title", .vStr "End"),
           ("questions", .vArr 7 []), ("transitions", .vArr 8 []),
           ("isEnd", .vBool true)]

/-- The quiz with the dangling `nextNodeId`. -/
def quizDangling : JsVal :=
  .vObj 0 [("id", .vStr "quiz1"), ("title", .vStr "Quiz"),
           ("version", .vStr "1"),
           ("nodes", .vArr 9 [startNodeWith danglingTransition, endNode])]

/-- The same quiz with the reference corrected. -/
def quizFixed : JsVal :=
  .vObj 0 [("id", .vStr "quiz1"), ("title", .vStr "Quiz"),
           ("version", .vStr "1"),
           ("nodes", .vArr 9 [startNodeWith fixedTransition, endNode])]

/-!
## Theorems about the claims
-/

/-- C1 (counterexample): contrary to the claim, `validateQuiz` does not
reject a quiz containing a transition whose `nextNodeId` matches no node id:
both revisions accept `quizDangling`, whose only transition points at the
non-existent node `"missing"`, because the schema validates `nextNodeId`
merely as a string. -/
theorem validateQuiz_dangling_accepted_cex :
    TypesTs.validateQuiz quizDangling = true ∧
    Part000.validateQuiz quizDangling = true := by
  decide

/-- C1 (amended): `validateQuiz` checks only conformance to `QuizSchema` and
performs no cross-reference check, so it accepts the quiz with the dangling
`nextNodeId` just as it accepts the same quiz with the reference corrected
to the existing node id `"n2"` (in both revisions). -/
theorem validateQuiz_schema_only :
    (TypesTs.validateQuiz quizDangling = true ∧
     Part000.validateQuiz quizDangling = true) ∧
    (TypesTs.validateQuiz quizFixed = true ∧
     Part000.validateQuiz quizFixed = true) := by
  decide

/-- C2 (counterexample): contrary to the claim, a transition with an empty
condition list does not fire regardless of its `combinationType`: with
`combinationType = OR`, `conditions.some(...)` over the empty list is
`false`, in both revisions (here with the empty responses record). -/
theorem empty_conditions_or_cex :
    TypesTs.evaluateTransition ⟨[], "n2", some .OR⟩ [] = false ∧
    Part000.evaluateTransition ⟨[], "n2", some .OR⟩ [] = false := by
  decide

/-- C2 (amended): for every responses record, a transition with an empty
condition list fires when its `combinationType` is `AND` or absent (the
default), and never fires when it is `OR`, in both revisions. -/
theorem empty_conditions_fire_iff_not_or (nid : String) (rs : Responses) :
    (TypesTs.evaluateTransition ⟨[], nid, some .AND⟩ rs = true ∧
     TypesTs.evaluateTransition ⟨[], nid, none⟩ rs = true ∧
     TypesTs.evaluateTransition ⟨[], nid, some .OR⟩ rs = false) ∧
    (Part000.evaluateTransition ⟨[], nid, some .AND⟩ rs = true ∧
     Part000.evaluateTransition ⟨[], nid, none⟩ rs = true ∧
     Part000.evaluateTransition ⟨[], nid, some .OR⟩ rs = false) := by
  simp [TypesTs.evaluateTransition, Part000.evaluateTransition]

/-- C3: the two revisions disagree on `BETWEEN` when `additionalValue` is
absent: for a `BETWEEN` condition with numeric `value` `lo`, no
`additionalValue`, and a numeric response `r` with `lo < r`, the `types.ts`
revision evaluates the condition `true` (the upper bound defaults to
`Infinity` through `?? Infinity`) while the `part_000` revision evaluates it
`false` (its numeric branch requires `additionalValue` to be a number). -/
theorem between_missing_upper_divergence (lo r : ℚ) (qid : String)
    (rs : Responses) (resp : QuestionResponse)
    (hlook : rs.lookup qid = some resp)
    (hval : resp.value = JsVal.vNum (JsNum.fin r))
    (h : lo < r) :
    TypesTs.evaluateCondition rs ⟨qid, .BETWEEN, .vNum (.fin lo), none⟩ = true ∧
    Part000.evaluateCondition rs ⟨qid, .BETWEEN, .vNum (.fin lo), none⟩ = false := by
  constructor
  · simp [TypesTs.evaluateCondition, hlook, TypesTs.evalOperator, hval,
      jsToNumber, jsNumLt, h]
  · simp [Part000.evaluateCondition, hlook, Part000.evalOperator, hval]

/-- C3 (witness): instantiated at `lo = 1`, `r = 2`. -/
theorem between_missing_upper_divergence_witness :
    TypesTs.evaluateCondition [("q", ⟨"q", .vNum (.fin 2), 0, true, none⟩)]
      ⟨"q", .BETWEEN, .vNum (.fin 1), none⟩ = true ∧
    Part000.evaluateCondition [("q", ⟨"q", .vNum (.fin 2), 0, true, none⟩)]
      ⟨"q", .BETWEEN, .vNum (.fin 1), none⟩ = false :=
  between_missing_upper_divergence 1 2 "q"
    [("q", ⟨"q", .vNum (.fin 2), 0, true, none⟩)]
    ⟨"q", .vNum (.fin 2), 0, true, none⟩ rfl rfl (by norm_num)

/-- C7: for every `BETWEEN` condition with numeric bounds `lo` (`value`) and
`hi` (`additionalValue`, present) and a numeric response `r`, both revisions
evaluate the condition `true` exactly when `lo < r` and `r < hi`; in
particular the condition is `false` when `r = lo` and when `r = hi`. -/
theorem between_strictly_exclusive (lo hi r : ℚ) (qid : String)
    (rs : Responses) (resp : QuestionResponse)
    (hlook : rs.lookup qid = some resp)
    (hval : resp.value = JsVal.vNum (JsNum.fin r)) :
    (TypesTs.evaluateCondition rs
        ⟨qid, .BETWEEN, .vNum (.fin lo), some (.vNum (.fin hi))⟩ =
      decide (lo < r ∧ r < hi)) ∧
    (Part000.evaluateCondition rs
        ⟨qid, .BETWEEN, .vNum (.fin lo), some (.vNum (.fin hi))⟩ =
      decide (lo < r ∧ r < hi)) ∧
    (r = lo →
      TypesTs.evaluateCondition rs
        ⟨qid, .BETWEEN, .vNum (.fin lo), some (.vNum (.fin hi))⟩ = false ∧
      Part000.evaluateCondition rs
        ⟨qid, .BETWEEN, .vNum (.fin lo), some (.vNum (.fin hi))⟩ = false) ∧
    (r = hi →
      TypesTs.evaluateCondition rs
        ⟨qid, .BETWEEN, .vNum (.fin lo), some (.vNum (.fin hi))⟩ = false ∧
      Part000.evaluateCondition rs
        ⟨qid, .BETWEEN, .vNum (.fin lo), some (.vNum (.fin hi))⟩ = false) := by
  have hA : TypesTs.evaluateCondition rs
      ⟨qid, .BETWEEN, .vNum (.fin lo), some (.vNum (.fin hi))⟩ =
      decide (lo < r ∧ r < hi) := by
    simp [TypesTs.evaluateCondition, hlook, TypesTs.evalOperator, hval,
      jsToNumber, jsNumLt, Bool.decide_and]
  have hB : Part000.evaluateCondition rs
      ⟨qid, .BETWEEN, .vNum (.fin lo), some (.vNum (.fin hi))⟩ =
      decide (lo < r ∧ r < hi) := by
    simp [Part000.evaluateCondition, hlook, Part000.evalOperator, hval,
      jsToNumber, jsNumLt, Bool.decide_and]
  refine ⟨hA, hB, ?_, ?_⟩
  · intro he
    subst he
    simp [hA, hB]
  · intro he
    subst he
    simp [hA, hB]

/-- C7 (witness): instantiated at `lo = 1`, `hi = 3`, `r = 2`. -/
theorem between_strictly_exclusive_witness :
    TypesTs.evaluateCondition [("q", ⟨"q", .vNum (.fin 2), 0, true, none⟩)]
      ⟨"q", .BETWEEN, .vNum (.fin 1), some (.vNum (.fin 3))⟩ =
      decide ((1 : ℚ) < 2 ∧ (2 : ℚ) < 3) :=
  (between_strictly_exclusive 1 3 2 "q"
    [("q", ⟨"q", .vNum (.fin 2), 0, true, none⟩)]
    ⟨"q", .vNum (.fin 2), 0, true, none⟩ rfl rfl).1

/-- C8: for every condition, whatever its operator, if the responses record
holds no response for `condition.questionId` then the condition evaluates to
`false`, in both revisions. -/
theorem missing_response_false (c : Condition) (rs : Responses)
    (h : rs.lookup c.questionId = none) :
    TypesTs.evaluateCondition rs c = false ∧
    Part000.evaluateCondition rs c = false := by
  simp [TypesTs.evaluateCondition, Part000.evaluateCondition, h]

/-- C8 (witness): an `EQUALS` condition against the empty responses record. -/
theorem missing_response_false_witness :
    TypesTs.evaluateCondition [] ⟨"q", .EQUALS, .vNum (.fin 1), none⟩ = false ∧
    Part000.evaluateCondition [] ⟨"q", .EQUALS, .vNum (.fin 1), none⟩ = false :=
  missing_response_false ⟨"q", .EQUALS, .vNum (.fin 1), none⟩ [] rfl

/-- C4 (counterexample): contrary to the claim, the non-date comparison is
not uniformly numeric: for a `GREATER_THAN` condition with numeric value `3`
and the string response `"5"`, numeric coercion (as the claim prescribes and
as `part_000` implements, yielding `true`) disagrees with the `types.ts`
revision, which requires `typeof response.value === 'number'` and evaluates
`false`. -/
theorem greater_than_not_numeric_cex :
    TypesTs.evaluateCondition [("q", ⟨"q", .vStr "5", 0, true, none⟩)]
      ⟨"q", .GREATER_THAN, .vNum (.fin 3), none⟩ = false ∧
    Part000.evaluateCondition [("q", ⟨"q", .vStr "5", 0, true, none⟩)]
      ⟨"q", .GREATER_THAN, .vNum (.fin 3), none⟩ = true := by
  decide

/-- C4 (amended): in the `part_000` revision, `GREATER_THAN` / `LESS_THAN`
compare by date ordering when both the response value and the condition
value are dates, and otherwise coerce both sides with `Number(...)` and
compare numerically; in the `types.ts` revision (whose condition schema
admits no date values), they evaluate `false` whenever the response value is
not a number, and for a numeric response compare it numerically against the
coerced condition value. -/
theorem greater_less_amended :
    (∀ (qid : String) (rs : Responses) (resp : QuestionResponse)
        (i : Nat) (tr : Int) (j : Nat) (tc : Int) (addl : Option JsVal),
      rs.lookup qid = some resp → resp.value = JsVal.vDate i tr →
        Part000.evaluateCondition rs ⟨qid, .GREATER_THAN, .vDate j tc, addl⟩ =
          decide (tc < tr) ∧
        Part000.evaluateCondition rs ⟨qid, .LESS_THAN, .vDate j tc, addl⟩ =
          decide (tr < tc)) ∧
    (∀ (qid : String) (rs : Responses) (resp : QuestionResponse)
        (cv : JsVal) (addl : Option JsVal),
      rs.lookup qid = some resp →
      (isDateVal resp.value && isDateVal cv) = false →
        Part000.evaluateCondition rs ⟨qid, .GREATER_THAN, cv, addl⟩ =
          jsNumLt (jsToNumber cv) (jsToNumber resp.value) ∧
        Part000.evaluateCondition rs ⟨qid, .LESS_THAN, cv, addl⟩ =
          jsNumLt (jsToNumber resp.value) (jsToNumber cv)) ∧
    (∀ (qid : String) (rs : Responses) (resp : QuestionResponse)
        (cv : JsVal) (addl : Option JsVal),
      rs.lookup qid = some resp → isNumVal resp.value = false →
        TypesTs.evaluateCondition rs ⟨qid, .GREATER_THAN, cv, addl⟩ = false ∧
        TypesTs.evaluateCondition rs ⟨qid, .LESS_THAN, cv, addl⟩ = false) ∧
    (∀ (qid : String) (rs : Responses) (resp : QuestionResponse)
        (n : JsNum) (cv : JsVal) (addl : Option JsVal),
      rs.lookup qid = some resp → resp.value = JsVal.vNum n →
        TypesTs.evaluateCondition rs ⟨qid, .GREATER_THAN, cv, addl⟩ =
          jsNumLt (jsToNumber cv) n ∧
        TypesTs.evaluateCondition rs ⟨qid, .LESS_THAN, cv, addl⟩ =
          jsNumLt n (jsToNumber cv)) := by
  refine ⟨?_, ?_, ?_, ?_⟩
  · intro qid rs resp i tr j tc addl hlook hval
    constructor <;>
      simp [Part000.evaluateCondition, hlook, Part000.evalOperator, hval]
  · intro qid rs resp cv addl hlook hnd
    cases hv : resp.value <;> cases hc : cv <;>
      simp_all [Part000.evaluateCondition, hlook, Part000.evalOperator,
        isDateVal]
  · intro qid rs resp cv addl hlook hnn
    cases hv : resp.value <;>
      simp_all [TypesTs.evaluateCondition, hlook, TypesTs.evalOperator,
        isNumVal]
  · intro qid rs resp n cv addl hlook hval
    constructor <;>
      simp [TypesTs.evaluateCondition, hlook, TypesTs.evalOperator, hval]

/-- C4 (witness): the `part_000` date clause at timestamps `10 > 5`, and the
`types.ts` non-number clause at the string response `"5"`. -/
theorem greater_less_amended_witness :
    Part000.evaluateCondition [("q", ⟨"q", .vDate 0 10, 0, true, none⟩)]
      ⟨"q", .GREATER_THAN, .vDate 1 5, none⟩ = decide ((5 : Int) < 10) ∧
    TypesTs.evaluateCondition [("q", ⟨"q", .vStr "5", 0, true, none⟩)]
      ⟨"q", .GREATER_THAN, .vNum (.fin 3), none⟩ = false :=
  ⟨(greater_less_amended.1 "q"
      [("q", ⟨"q", .vDate 0 10, 0, true, none⟩)]
      ⟨"q", .vDate 0 10, 0, true, none⟩ 0 10 1 5 none rfl rfl).1,
   (greater_less_amended.2.2.1 "q"
      [("q", ⟨"q", .vStr "5", 0, true, none⟩)]
      ⟨"q", .vStr "5", 0, true, none⟩ (.vNum (.fin 3)) none rfl rfl).1⟩

/-- Bridging lemma: a lawful `==` agrees with the decision procedure of
propositional equality. -/
theorem beq_as_decide {α : Type} [BEq α] [LawfulBEq α] [DecidableEq α]
    (a b : α) : (a == b) = decide (a = b) := by
  by_cases h : a = b <;> simp [h]

/-- C5: in the `part_000` revision (the only revision whose condition schema
admits date values), an `EQUALS` condition whose value and response are both
dates evaluates `true` exactly when the two dates carry the same timestamp —
the identity tags are unconstrained, so equality of instants suffices and
sameness of reference is not required; when the two values are not both
dates, `EQUALS` is strict equality, which on strings, finite numbers and
booleans (in both revisions) is plain value equality. -/
theorem equals_date_instant_equality :
    (∀ (qid : String) (rs : Responses) (resp : QuestionResponse)
        (i : Nat) (t1 : Int) (j : Nat) (t2 : Int) (addl : Option JsVal),
      rs.lookup qid = some resp → resp.value = JsVal.vDate i t1 →
        Part000.evaluateCondition rs ⟨qid, .EQUALS, .vDate j t2, addl⟩ =
          decide (t1 = t2)) ∧
    (∀ (qid : String) (rs : Responses) (resp : QuestionResponse)
        (cv : JsVal) (addl : Option JsVal),
      rs.lookup qid = some resp →
      (isDateVal resp.value && isDateVal cv) = false →
        Part000.evaluateCondition rs ⟨qid, .EQUALS, cv, addl⟩ =
          jsStrictEq resp.value cv) ∧
    (∀ (qid : String) (rs : Responses) (resp : QuestionResponse)
        (s1 s2 : String) (addl : Option JsVal),
      rs.lookup qid = some resp → resp.value = JsVal.vStr s1 →
        TypesTs.evaluateCondition rs ⟨qid, .EQUALS, .vStr s2, addl⟩ =
          decide (s1 = s2) ∧
        Part000.evaluateCondition rs ⟨qid, .EQUALS, .vStr s2, addl⟩ =
          decide (s1 = s2)) ∧
    (∀ (qid : String) (rs : Responses) (resp : QuestionResponse)
        (a b : ℚ) (addl : Option JsVal),
      rs.lookup qid = some resp → resp.value = JsVal.vNum (.fin a) →
        TypesTs.evaluateCondition rs ⟨qid, .EQUALS, .vNum (.fin b), addl⟩ =
          decide (a = b) ∧
        Part000.evaluateCondition rs ⟨qid, .EQUALS, .vNum (.fin b), addl⟩ =
          decide (a = b)) ∧
    (∀ (qid : String) (rs : Responses) (resp : QuestionResponse)
        (b1 b2 : Bool) (addl : Option JsVal),
      rs.lookup qid = some resp → resp.value = JsVal.vBool b1 →
        TypesTs.evaluateCondition rs ⟨qid, .EQUALS, .vBool b2, addl⟩ =
          (b1 == b2) ∧
        Part000.evaluateCondition rs ⟨qid, .EQUALS, .vBool b2, addl⟩ =
          (b1 == b2)) := by
  refine ⟨?_, ?_, ?_, ?_, ?_⟩
  · intro qid rs resp i t1 j t2 addl hlook hval
    simp [Part000.evaluateCondition, hlook, Part000.evalOperator, hval,
      Part000.compareValues, beq_as_decide]
  · intro qid rs resp cv addl hlook hnd
    cases hv : resp.value <;> cases hc : cv <;>
      simp_all [Part000.evaluateCondition, hlook, Part000.evalOperator,
        Part000.compareValues, isDateVal]
  · intro qid rs resp s1 s2 addl hlook hval
    constructor <;>
      simp [TypesTs.evaluateCondition, Part000.evaluateCondition, hlook,
        TypesTs.evalOperator, Part000.evalOperator, Part000.compareValues,
        hval, jsStrictEq, beq_as_decide]
  · intro qid rs resp a b addl hlook hval
    constructor <;>
      simp [TypesTs.evaluateCondition, Part000.evaluateCondition, hlook,
        TypesTs.evalOperator, Part000.evalOperator, Part000.compareValues,
        hval, jsStrictEq, jsNumEq]
  · intro qid rs resp b1 b2 addl hlook hval
    constructor <;>
      simp [TypesTs.evaluateCondition, Part000.evaluateCondition, hlook,
        TypesTs.evalOperator, Part000.evalOperator, Part000.compareValues,
        hval, jsStrictEq]

/-- C5 (witness): two dates with distinct identity tags and the same
timestamp compare equal. -/
theorem equals_date_instant_equality_witness :
    Part000.evaluateCondition [("q", ⟨"q", .vDate 0 42, 0, true, none⟩)]
      ⟨"q", .EQUALS, .vDate 1 42, none⟩ = decide ((42 : Int) = 42) :=
  equals_date_instant_equality.1 "q"
    [("q", ⟨"q", .vDate 0 42, 0, true, none⟩)]
    ⟨"q", .vDate 0 42, 0, true, none⟩ 0 42 1 42 none rfl rfl

/-- C6: for every condition value and responses record, when a response
exists for the condition's question, `NOT_EQUALS` evaluates to the boolean
negation of `EQUALS` on the same condition data; when no response exists,
both `EQUALS` and `NOT_EQUALS` evaluate `false` — in both revisions. -/
theorem equals_notEquals_complement (qid : String) (value : JsVal)
    (addl : Option JsVal) (rs : Responses) :
    (∀ resp, rs.lookup qid = some resp →
      TypesTs.evaluateCondition rs ⟨qid, .NOT_EQUALS, value, addl⟩ =
        !(TypesTs.evaluateCondition rs ⟨qid, .EQUALS, value, addl⟩) ∧
      Part000.evaluateCondition rs ⟨qid, .NOT_EQUALS, value, addl⟩ =
        !(Part000.evaluateCondition rs ⟨qid, .EQUALS, value, addl⟩)) ∧
    (rs.lookup qid = none →
      TypesTs.evaluateCondition rs ⟨qid, .EQUALS, value, addl⟩ = false ∧
      TypesTs.evaluateCondition rs ⟨qid, .NOT_EQUALS, value, addl⟩ = false ∧
      Part000.evaluateCondition rs ⟨qid, .EQUALS, value, addl⟩ = false ∧
      Part000.evaluateCondition rs ⟨qid, .NOT_EQUALS, value, addl⟩ = false) := by
  constructor
  · intro resp hlook
    constructor <;>
      simp [TypesTs.evaluateCondition, Part000.evaluateCondition, hlook,
        TypesTs.evalOperator, Part000.evalOperator]
  · intro hlook
    simp [TypesTs.evaluateCondition, Part000.evaluateCondition, hlook]

/-- Helper: a state-threaded `some` whose callback leaves the state intact
leaves the state intact and computes `List.any` of the pure callback. -/
theorem someSt_spec (f : Condition → Responses → Bool × Responses)
    (g : Condition → Responses → Bool)
    (hf2 : ∀ c s, (f c s).2 = s) (hf1 : ∀ c s, (f c s).1 = g c s) :
    ∀ (cs : List Condition) (s : Responses),
      (someSt f cs s).2 = s ∧ (someSt f cs s).1 = cs.any (fun c => g c s) := by
  intro cs
  induction cs with
  | nil => intro s; exact ⟨rfl, rfl⟩
  | cons c cs ih =>
    intro s
    have hpair : f c s = (g c s, s) := by
      have h1 := hf1 c s
      have h2 := hf2 c s
      rcases hfc : f c s with ⟨b, s1⟩
      rw [hfc] at h1 h2
      simp_all
    rcases hg : g c s with _ | _ <;>
      simp [someSt, hpair, hg, ih s]

/-- Helper: the `every` analogue of `someSt_spec`. -/
theorem everySt_spec (f : Condition → Responses → Bool × Responses)
    (g : Condition → Responses → Bool)
    (hf2 : ∀ c s, (f c s).2 = s) (hf1 : ∀ c s, (f c s).1 = g c s) :
    ∀ (cs : List Condition) (s : Responses),
      (everySt f cs s).2 = s ∧ (everySt f cs s).1 = cs.all (fun c => g c s) := by
  intro cs
  induction cs with
  | nil => intro s; exact ⟨rfl, rfl⟩
  | cons c cs ih =>
    intro s
    have hpair : f c s = (g c s, s) := by
      have h1 := hf1 c s
      have h2 := hf2 c s
      rcases hfc : f c s with ⟨b, s1⟩
      rw [hfc] at h1 h2
      simp_all
    rcases hg : g c s with _ | _ <;>
      simp [everySt, hpair, hg, ih s]

/-- Helper: the state-threaded condition evaluator of `types.ts` returns the
record unchanged and agrees with the pure evaluator. -/
theorem TypesTs_evalCondSt_spec (c : Condition) (s : Responses) :
    (TypesTs.evaluateConditionSt c s).2 = s ∧
    (TypesTs.evaluateConditionSt c s).1 = TypesTs.evaluateCondition s c := by
  unfold TypesTs.evaluateConditionSt TypesTs.evaluateCondition readResponse
  cases List.lookup c.questionId s <;> exact ⟨rfl, rfl⟩

/-- Helper: the state-threaded condition evaluator of `part_000` returns the
record unchanged and agrees with the pure evaluator. -/
theorem Part000_evalCondSt_spec (c : Condition) (s : Responses) :
    (Part000.evaluateConditionSt c s).2 = s ∧
    (Part000.evaluateConditionSt c s).1 = Part000.evaluateCondition s c := by
  unfold Part000.evaluateConditionSt Part000.evaluateCondition readResponse
  cases List.lookup c.questionId s <;> exact ⟨rfl, rfl⟩

/-- C6 (witness): with a response present, `NOT_EQUALS` is the negation of
`EQUALS` at a concrete string value. -/
theorem equals_notEquals_complement_witness :
    TypesTs.evaluateCondition [("q", ⟨"q", .vStr "a", 0, true, none⟩)]
      ⟨"q", .NOT_EQUALS, .vStr "b", none⟩ =
    !(TypesTs.evaluateCondition [("q", ⟨"q", .vStr "a", 0, true, none⟩)]
      ⟨"q", .EQUALS, .vStr "b", none⟩) :=
  ((equals_notEquals_complement "q" (.vStr "b") none
      [("q", ⟨"q", .vStr "a", 0, true, none⟩)]).1
    ⟨"q", .vStr "a", 0, true, none⟩ rfl).1

/-- C9: `evaluateTransition` is deterministic and effect-free in both
revisions: the state-threaded form of the evaluator — in which the only
operation touching the responses record, the property read, is made explicit
— returns the record exactly as given and computes the same boolean as the
pure evaluator; and two evaluations at equal transitions and equal records
return the same boolean. -/
theorem evaluateTransition_pure_deterministic :
    (∀ (t : Transition) (rs : Responses),
      (TypesTs.evaluateTransitionSt t rs).2 = rs ∧
      (TypesTs.evaluateTransitionSt t rs).1 = TypesTs.evaluateTransition t rs ∧
      (Part000.evaluateTransitionSt t rs).2 = rs ∧
      (Part000.evaluateTransitionSt t rs).1 = Part000.evaluateTransition t rs) ∧
    (∀ (t1 t2 : Transition) (rs1 rs2 : Responses), t1 = t2 → rs1 = rs2 →
      TypesTs.evaluateTransition t1 rs1 = TypesTs.evaluateTransition t2 rs2 ∧
      Part000.evaluateTransition t1 rs1 = Part000.evaluateTransition t2 rs2) := by
  constructor
  · intro t rs
    have hA := someSt_spec TypesTs.evaluateConditionSt
      (fun c s => TypesTs.evaluateCondition s c)
      (fun c s => (TypesTs_evalCondSt_spec c s).1)
      (fun c s => (TypesTs_evalCondSt_spec c s).2) t.conditions rs
    have hA2 := everySt_spec TypesTs.evaluateConditionSt
      (fun c s => TypesTs.evaluateCondition s c)
      (fun c s => (TypesTs_evalCondSt_spec c s).1)
      (fun c s => (TypesTs_evalCondSt_spec c s).2) t.conditions rs
    have hB := someSt_spec Part000.evaluateConditionSt
      (fun c s => Part000.evaluateCondition s c)
      (fun c s => (Part000_evalCondSt_spec c s).1)
      (fun c s => (Part000_evalCondSt_spec c s).2) t.conditions rs
    have hB2 := everySt_spec Part000.evaluateConditionSt
      (fun c s => Part000.evaluateCondition s c)
      (fun c s => (Part000_evalCondSt_spec c s).1)
      (fun c s => (Part000_evalCondSt_spec c s).2) t.conditions rs
    unfold TypesTs.evaluateTransitionSt TypesTs.evaluateTransition
      Part000.evaluateTransitionSt Part000.evaluateTransition
    rcases t.combinationType with _ | ct
    · exact ⟨hA2.1, hA2.2, hB2.1, hB2.2⟩
    · cases ct
      · exact ⟨hA2.1, hA2.2, hB2.1, hB2.2⟩
      · exact ⟨hA.1, hA.2, hB.1, hB.2⟩
  · intro t1 t2 rs1 rs2 ht hrs
    subst ht
    subst hrs
    exact ⟨rfl, rfl⟩

/-- C9 (witness): determinism instantiated at a concrete transition and
record. -/
theorem evaluateTransition_pure_deterministic_witness :
    TypesTs.evaluateTransition ⟨[], "n2", none⟩ [] =
      TypesTs.evaluateTransition ⟨[], "n2", none⟩ [] ∧
    Part000.evaluateTransition ⟨[], "n2", none⟩ [] =
      Part000.evaluateTransition ⟨[], "n2", none⟩ [] :=
  evaluateTransition_pure_deterministic.2
    ⟨[], "n2", none⟩ ⟨[], "n2", none⟩ [] [] rfl rfl

/-- C10: `validateQuiz` is total at its public interface in both revisions:
on every input value — including structurally malformed ones — it returns a
boolean; it returns `true` exactly when `v.parse(QuizSchema, quiz)` succeeds,
and the thrown parse failure is caught and mapped to `false` in every other
case, so no exception escapes. -/
theorem validateQuiz_total (j : JsVal) :
    (TypesTs.validateQuiz j = true ∨ TypesTs.validateQuiz j = false) ∧
    (TypesTs.validateQuiz j = true ↔ TypesTs.parseQuiz j = Except.ok ()) ∧
    (TypesTs.validateQuiz j = false ↔ TypesTs.parseQuiz j ≠ Except.ok ()) ∧
    (Part000.validateQuiz j = true ∨ Part000.validateQuiz j = false) ∧
    (Part000.validateQuiz j = true ↔ Part000.parseQuiz j = Except.ok ()) ∧
    (Part000.validateQuiz j = false ↔ Part000.parseQuiz j ≠ Except.ok ()) := by
  unfold TypesTs.validateQuiz TypesTs.parseQuiz
    Part000.validateQuiz Part000.parseQuiz
  by_cases hA : checkQuizWith TypesTs.checkCondition j <;>
    by_cases hB : checkQuizWith Part000.checkCondition j <;>
      simp [hA, hB]

/-- C10 (witness): instantiated at a malformed input (a bare string), where
the failed parse is mapped to `false`. -/
theorem validateQuiz_total_witness :
    TypesTs.validateQuiz (JsVal.vStr "junk") = false ∧
    Part000.validateQuiz (JsVal.vStr "junk") = false :=
  ⟨(validateQuiz_total (JsVal.vStr "junk")).2.2.1.mpr
     (by simp [TypesTs.parseQuiz, checkQuizWith]),
   (validateQuiz_total (JsVal.vStr "junk")).2.2.2.2.2.mpr
     (by simp [Part000.parseQuiz, checkQuizWith])⟩
